import Mathlib

/-!
Streamline front end: request orchestration of `frontend/pages/index.js`.

A shallow embedding of the `Home` component's asynchronous logic: the React state
cells become fields of `HomeState`, the browser (alerts, console, HTTP requests,
object URLs, unhandled promise rejections) becomes the explicit value `World`, and
every `async` handler is split at its `await` into the part that runs on the click
and the part that runs when the request settles.
-/

namespace Streamline

/-! ## Data model -/

/-- A browser `File` object chosen in an `<input type="file">`, named by its file name.
A state cell holding `null` (initial value) or `undefined` (`e.target.files[0]` with
no file chosen) is `none`; both are falsy, a `File` object is always truthy. -/
abbrev FileHandle := String

/-- A value handed to `FormData.append`. -/
inductive FieldValue where
  | file (f : FileHandle)
  | text (s : String)
  | number (x : Rat)
  deriving DecidableEq, Repr

/-- The entries of a `FormData`, in insertion order; `append` never replaces. -/
abbrev FormData := List (String × FieldValue)

/-- `formData.append(name, value)`: adds a new entry at the end, also when the name
is already present. -/
def FormData.append (fd : FormData) (name : String) (v : FieldValue) : FormData :=
  fd ++ [(name, v)]

/-- The field names of a payload, with multiplicity, in order. -/
def FormData.names (fd : FormData) : List String :=
  fd.map Prod.fst

/-- The user-editable state cells of `Home` (index.js lines 7-19). -/
structure InputModel where
  scriptFile : Option FileHandle
  voiceFile : Option FileHandle
  genre : String
  competitorUrl : String
  pexelsKey : String
  pixabayKey : String
  geminiKey : String
  geminiEndpoint : String
  aspectRatio : String
  voiceName : String
  bgMusicFile : Option FileHandle
  bgMusicVolume : Rat
  deriving DecidableEq, Repr

/-- The `keyStatus` cell (index.js line 34). -/
structure KeyStatus where
  gemini : Bool
  pexels : Bool
  pixabay : Bool
  deriving DecidableEq, Repr

/-- The `gpu_stats` part of the `systemStatus` cell. -/
structure GpuStats where
  name : String
  load : Nat
  memory : Nat
  deriving DecidableEq, Repr

/-- The `systemStatus` cell (index.js lines 27-33). -/
structure SystemStatus where
  device : String
  gpu_available : Bool
  cpu_usage : Nat
  memory_usage : Nat
  gpu_stats : GpuStats
  deriving DecidableEq, Repr

/-- All state cells of the `Home` component. -/
structure HomeState where
  input : InputModel
  loading : Bool
  checkingGemini : Bool
  checkingPexels : Bool
  checkingPixabay : Bool
  videoUrl : String
  systemStatus : SystemStatus
  keyStatus : KeyStatus
  deriving DecidableEq, Repr

/-- The values the `useState` calls start from (index.js lines 7-34). -/
def initialState : HomeState where
  input :=
    { scriptFile := none
      voiceFile := none
      genre := "Documentary"
      competitorUrl := ""
      pexelsKey := ""
      pixabayKey := ""
      geminiKey := ""
      geminiEndpoint := ""
      aspectRatio := "16:9"
      voiceName := "Female (Default)"
      bgMusicFile := none
      bgMusicVolume := 1 / 10 }
  loading := false
  checkingGemini := false
  checkingPexels := false
  checkingPixabay := false
  videoUrl := ""
  systemStatus :=
    { device := "Checking..."
      gpu_available := false
      cpu_usage := 0
      memory_usage := 0
      gpu_stats := { name := "None", load := 0, memory := 0 } }
  keyStatus := { gemini := false, pexels := false, pixabay := false }

/-! ## The browser seen from the component -/

/-- A binary body. -/
structure Blob where
  bytes : List Nat
  type : String
  deriving DecidableEq, Repr

/-- `new Blob([part], { type })`. -/
def Blob.new (part : Blob) (type : String) : Blob :=
  { bytes := part.bytes, type := type }

/-- An HTTP request handed to axios. -/
structure Request where
  method : String
  url : String
  body : FormData
  deriving DecidableEq, Repr

/-- Why an axios promise rejected. -/
inductive AxiosError where
  | badStatus (status : Nat)
  | network (msg : String)
  deriving DecidableEq, Repr

/-- What the transport delivers for one request. -/
inductive HttpOutcome (α : Type) where
  | response (status : Nat) (data : α)
  | failure (msg : String)
  deriving DecidableEq, Repr

/-- A settled promise. -/
inductive Settled (α : Type) where
  | fulfilled (value : α)
  | rejected (reason : AxiosError)
  deriving DecidableEq, Repr

/-- The promise axios returns resolves for a status in 200..299 (its default
`validateStatus`) and rejects for every other status and for a transport failure. -/
def axiosSettle {α : Type} : HttpOutcome α → Settled α
  | .response status data =>
    if 200 ≤ status ∧ status < 300 then .fulfilled data else .rejected (.badStatus status)
  | .failure msg => .rejected (.network msg)

/-- Everything outside the component that its handlers act on. -/
structure World where
  alerts : List String
  consoleErrors : List (String × AxiosError)
  requests : List Request
  objectUrls : List (String × Blob)
  unhandledRejections : List AxiosError
  deriving DecidableEq, Repr

/-- A browser in which nothing has happened yet. -/
def World.empty : World :=
  { alerts := [], consoleErrors := [], requests := [], objectUrls := [],
    unhandledRejections := [] }

/-- `alert(msg)`. -/
def World.alert (w : World) (msg : String) : World :=
  { w with alerts := w.alerts ++ [msg] }

/-- `console.error(msg, err)`; `console.error(err)` has the empty message. -/
def World.consoleError (w : World) (msg : String) (err : AxiosError) : World :=
  { w with consoleErrors := w.consoleErrors ++ [(msg, err)] }

/-- `axios.post(url, formData)`: the request leaves the page. -/
def World.post (w : World) (url : String) (body : FormData) : World :=
  { w with requests := w.requests ++ [{ method := "POST", url := url, body := body }] }

/-- `axios.get(url)`. -/
def World.get (w : World) (url : String) : World :=
  { w with requests := w.requests ++ [{ method := "GET", url := url, body := [] }] }

/-- `URL.createObjectURL(blob)`: registers the blob under a URL not handed out before. -/
def World.createObjectURL (w : World) (b : Blob) : String × World :=
  let url := "blob:" ++ toString w.objectUrls.length
  (url, { w with objectUrls := w.objectUrls ++ [(url, b)] })

def generateVideoUrl : String := "http://localhost:8000/generate-video"

def validateKeysUrl : String := "http://localhost:8000/validate-keys"

def systemStatusUrl : String := "http://localhost:8000/system-status"

/-! ## `handleSubmit` (index.js lines 71-116) -/

/-- The payload assembled on lines 77-94, for a present script file. -/
def handleSubmit_formData (i : InputModel) (scriptFile : FileHandle) : FormData :=
  let formData : FormData := []
  let formData := formData.append "script" (.file scriptFile)
  let formData :=
    match i.voiceFile with
    | some voiceFile => formData.append "voiceover" (.file voiceFile)
    | none => formData
  let formData := formData.append "competitor_url" (.text i.competitorUrl)
  let formData := formData.append "base_genre" (.text i.genre)
  let formData := formData.append "api_key_pexels" (.text i.pexelsKey)
  let formData := formData.append "api_key_pixabay" (.text i.pixabayKey)
  let formData := formData.append "api_key_gemini" (.text i.geminiKey)
  let formData := formData.append "api_endpoint_gemini" (.text i.geminiEndpoint)
  let formData := formData.append "api_endpoint_gemini" (.text i.geminiEndpoint)
  let formData := formData.append "aspect_ratio" (.text i.aspectRatio)
  let formData := formData.append "voice_name" (.text i.voiceName)
  match i.bgMusicFile with
  | some bgMusicFile =>
    let formData := formData.append "background_music" (.file bgMusicFile)
    formData.append "bg_music_volume" (.number i.bgMusicVolume)
  | none => formData

/-- The part of `handleSubmit` that runs on the click, up to the `await` (lines 72-105):
without a script file it alerts and returns; otherwise it builds the payload, sets
`loading` and posts. -/
def handleSubmit_start (s : HomeState) (w : World) : HomeState × World :=
  match s.input.scriptFile with
  | none => (s, w.alert "Please upload a script file")
  | some scriptFile =>
    let formData := handleSubmit_formData s.input scriptFile
    ({ s with loading := true }, w.post generateVideoUrl formData)

/-- The part of `handleSubmit` that runs when the awaited post settles (lines 107-115):
the `try` body on fulfilment, the `catch` body on rejection, then `finally`. -/
def handleSubmit_resume (res : Settled Blob) (s : HomeState) (w : World) :
    HomeState × World :=
  let (s, w) :=
    match res with
    | .fulfilled data =>
      let videoBlob := Blob.new data "video/mp4"
      let (url, w) := w.createObjectURL videoBlob
      ({ s with videoUrl := url }, w)
    | .rejected err => (s, (w.consoleError "" err).alert "Error generating video")
  ({ s with loading := false }, w)

/-- One whole run of `handleSubmit` with nothing interleaved: `out` is what the
transport delivers for the post, if the run gets that far. -/
def handleSubmit (out : HttpOutcome Blob) (s : HomeState) (w : World) : HomeState × World :=
  match s.input.scriptFile with
  | none => handleSubmit_start s w
  | some _ =>
    let (s, w) := handleSubmit_start s w
    handleSubmit_resume (axiosSettle out) s w

/-! ## Promise chains -/

/-- A callback of a promise chain: it may set state cells and act on the browser. -/
abbrev Callback := HomeState × World → HomeState × World

/-- `p.then(f)`: `f` runs on fulfilment; a rejection passes through. -/
def promiseThen {α : Type} (p : Settled α) (f : α → Callback) (sw : HomeState × World) :
    Settled Unit × (HomeState × World) :=
  match p with
  | .fulfilled value => (.fulfilled (), f value sw)
  | .rejected reason => (.rejected reason, sw)

/-- `p.catch(g)`: `g` runs on rejection and the chain continues fulfilled. -/
def promiseCatch {α : Type} (p : Settled α) (g : AxiosError → Callback)
    (sw : HomeState × World) : Settled Unit × (HomeState × World) :=
  match p with
  | .fulfilled _ => (.fulfilled (), sw)
  | .rejected reason => (.fulfilled (), g reason sw)

/-- `p.finally(h)`: `h` runs either way and the settlement of `p` passes through. -/
def promiseFinally {α : Type} (p : Settled α) (h : Callback) (sw : HomeState × World) :
    Settled α × (HomeState × World) :=
  (p, h sw)

/-- The last promise of a chain that nothing is attached to: when it is rejected the
browser reports an unhandled rejection. -/
def promiseEnd {α : Type} (p : Settled α) (sw : HomeState × World) : HomeState × World :=
  match p with
  | .fulfilled _ => sw
  | .rejected reason =>
    (sw.1, { sw.2 with unhandledRejections := sw.2.unhandledRejections ++ [reason] })

/-! ## Key validation (index.js lines 48-69 and 297-362) -/

/-- The dependency array of the validation effect, which is also what the `validate`
closure of one render captures. -/
structure Credentials where
  geminiKey : String
  geminiEndpoint : String
  pexelsKey : String
  pixabayKey : String
  deriving DecidableEq, Repr

/-- The dependency values of the render that shows input `i`. -/
def InputModel.credentials (i : InputModel) : Credentials :=
  { geminiKey := i.geminiKey, geminiEndpoint := i.geminiEndpoint,
    pexelsKey := i.pexelsKey, pixabayKey := i.pixabayKey }

/-- The body `validate` posts (lines 53-57). -/
def validate_formData (c : Credentials) : FormData :=
  let formData : FormData := []
  let formData := formData.append "api_key_gemini" (.text c.geminiKey)
  let formData := formData.append "api_endpoint_gemini" (.text c.geminiEndpoint)
  let formData := formData.append "api_key_pexels" (.text c.pexelsKey)
  formData.append "api_key_pixabay" (.text c.pixabayKey)

/-- The part of `validate` up to its `await` (lines 51-60): an empty string is falsy,
so with the three keys empty it returns at once. -/
def validate_start (c : Credentials) (w : World) : World :=
  if c.geminiKey = "" ∧ c.pexelsKey = "" ∧ c.pixabayKey = "" then w
  else w.post validateKeysUrl (validate_formData c)

/-- The part of `validate` after its `await` (lines 61-64): the `try` body on
fulfilment, the `catch` body on rejection. -/
def validate_resume (res : Settled KeyStatus) (s : HomeState) (w : World) :
    HomeState × World :=
  match res with
  | .fulfilled data => ({ s with keyStatus := data }, w)
  | .rejected e => (s, w.consoleError "Key validation failed" e)

/-- The `onClick` of the Pexels Check button up to the post (lines 299-302). -/
def pexelsCheck_onClick (s : HomeState) (w : World) : HomeState × World :=
  let s := { s with checkingPexels := true }
  let formData : FormData := []
  let formData := formData.append "api_key_pexels" (.text s.input.pexelsKey)
  (s, w.post validateKeysUrl formData)

/-- The chain attached to the Pexels post (lines 303-304): `.then(...).finally(...)`. -/
def pexelsCheck_settle (res : Settled KeyStatus) (s : HomeState) (w : World) :
    HomeState × World :=
  let (p, sw) :=
    promiseThen res
      (fun data sw => ({ sw.1 with keyStatus := { sw.1.keyStatus with pexels := data.pexels } }, sw.2))
      (s, w)
  let (p, sw) := promiseFinally p (fun sw => ({ sw.1 with checkingPexels := false }, sw.2)) sw
  promiseEnd p sw

/-- The `onClick` of the Pixabay Check button up to the post (lines 323-326). -/
def pixabayCheck_onClick (s : HomeState) (w : World) : HomeState × World :=
  let s := { s with checkingPixabay := true }
  let formData : FormData := []
  let formData := formData.append "api_key_pixabay" (.text s.input.pixabayKey)
  (s, w.post validateKeysUrl formData)

/-- The chain attached to the Pixabay post (lines 327-328): `.then(...).finally(...)`. -/
def pixabayCheck_settle (res : Settled KeyStatus) (s : HomeState) (w : World) :
    HomeState × World :=
  let (p, sw) :=
    promiseThen res
      (fun data sw =>
        ({ sw.1 with keyStatus := { sw.1.keyStatus with pixabay := data.pixabay } }, sw.2))
      (s, w)
  let (p, sw) := promiseFinally p (fun sw => ({ sw.1 with checkingPixabay := false }, sw.2)) sw
  promiseEnd p sw

/-- The `onClick` of the Gemini Check button up to the post (lines 349-353). -/
def geminiCheck_onClick (s : HomeState) (w : World) : HomeState × World :=
  let s := { s with checkingGemini := true }
  let formData : FormData := []
  let formData := formData.append "api_key_gemini" (.text s.input.geminiKey)
  let formData := formData.append "api_endpoint_gemini" (.text s.input.geminiEndpoint)
  (s, w.post validateKeysUrl formData)

/-- The chain attached to the Gemini post (lines 354-356):
`.then(...).catch(...).finally(...)`. -/
def geminiCheck_settle (res : Settled KeyStatus) (s : HomeState) (w : World) :
    HomeState × World :=
  let (p, sw) :=
    promiseThen res
      (fun data sw => ({ sw.1 with keyStatus := { sw.1.keyStatus with gemini := data.gemini } }, sw.2))
      (s, w)
  let (p, sw) := promiseCatch p (fun err sw => (sw.1, sw.2.consoleError "Gemini check failed" err)) sw
  let (p, sw) := promiseFinally p (fun sw => ({ sw.1 with checkingGemini := false }, sw.2)) sw
  promiseEnd p sw

/-! ## System status (index.js lines 36-46) -/

/-- `fetchStatus` up to the request (line 39). -/
def fetchStatus_start (w : World) : World :=
  w.get systemStatusUrl

/-- The chain attached to the status request (lines 40-41): `.then(...).catch(...)`. -/
def fetchStatus_settle (res : Settled SystemStatus) (s : HomeState) (w : World) :
    HomeState × World :=
  let (p, sw) := promiseThen res (fun data sw => ({ sw.1 with systemStatus := data }, sw.2)) (s, w)
  let (p, sw) :=
    promiseCatch p (fun err sw => (sw.1, sw.2.consoleError "Failed to fetch system status" err)) sw
  promiseEnd p sw

/-! ## Buttons (index.js lines 297-362 and 384-386)

A `<button disabled>` delivers no click, so each handler runs only while its
`disabled` expression is false. -/

/-- A click on the render button: `onClick={handleSubmit}` with `disabled={loading}`. -/
def renderButton_click (s : HomeState) (w : World) : HomeState × World :=
  if s.loading then (s, w) else handleSubmit_start s w

/-- A click on the Pexels Check button, `disabled={checkingPexels}`. -/
def pexelsButton_click (s : HomeState) (w : World) : HomeState × World :=
  if s.checkingPexels then (s, w) else pexelsCheck_onClick s w

/-- A click on the Pixabay Check button, `disabled={checkingPixabay}`. -/
def pixabayButton_click (s : HomeState) (w : World) : HomeState × World :=
  if s.checkingPixabay then (s, w) else pixabayCheck_onClick s w

/-- A click on the Gemini Check button, `disabled={checkingGemini}`. -/
def geminiButton_click (s : HomeState) (w : World) : HomeState × World :=
  if s.checkingGemini then (s, w) else geminiCheck_onClick s w

/-! ## The page as a transition system -/

/-- A call fails when the transport fails or the status is outside 200..299. -/
def HttpOutcome.failed {α : Type} : HttpOutcome α → Bool
  | .response status _ => !(decide (200 ≤ status) && decide (status < 300))
  | .failure _ => true

/-- The page together with the browser, and the number of `/generate-video` posts
that have settled so far. -/
structure System where
  home : HomeState
  world : World
  rendersSettled : Nat
  deriving DecidableEq, Repr

/-- The freshly mounted page. -/
def System.init : System :=
  { home := initialState, world := World.empty, rendersSettled := 0 }

/-- How many `/generate-video` posts have left the page. -/
def rendersSent (w : World) : Nat :=
  (w.requests.filter (fun r => decide (r.url = generateVideoUrl))).length

/-- How many `/generate-video` posts are waiting for their response. -/
def System.outstandingRenders (sys : System) : Nat :=
  rendersSent sys.world - sys.rendersSettled

/-- What can happen to the page: an edit of the form, a click on one of the four
buttons, a timer callback, or the settling of a request. -/
inductive Event where
  | edit (i : InputModel)
  | renderClick
  | renderSettles (out : HttpOutcome Blob)
  | pexelsClick
  | pexelsSettles (out : HttpOutcome KeyStatus)
  | pixabayClick
  | pixabaySettles (out : HttpOutcome KeyStatus)
  | geminiClick
  | geminiSettles (out : HttpOutcome KeyStatus)
  | validateFires
  | validateSettles (out : HttpOutcome KeyStatus)
  | statusTick
  | statusSettles (out : HttpOutcome SystemStatus)

/-- Puts the result of a handler back into the system. -/
def System.set (sys : System) (sw : HomeState × World) : System :=
  { sys with home := sw.1, world := sw.2 }

/-- One event. Each event is a browser task of its own: React has committed the
state set by the handlers of earlier events before the next handler runs, so a click
meets the `disabled` value of the committed state. A `/generate-video` response can
only arrive for a post that is outstanding; the other responses touch neither `loading` nor the render requests,
so they are not counted. The `validate` closure of the pending timer holds the
credentials of the current render, because every change of them re-arms the timer. -/
def step (ev : Event) (sys : System) : System :=
  match ev with
  | .edit i => { sys with home := { sys.home with input := i } }
  | .renderClick => sys.set (renderButton_click sys.home sys.world)
  | .renderSettles out =>
    if 0 < sys.outstandingRenders then
      { sys.set (handleSubmit_resume (axiosSettle out) sys.home sys.world) with
        rendersSettled := sys.rendersSettled + 1 }
    else sys
  | .pexelsClick => sys.set (pexelsButton_click sys.home sys.world)
  | .pexelsSettles out => sys.set (pexelsCheck_settle (axiosSettle out) sys.home sys.world)
  | .pixabayClick => sys.set (pixabayButton_click sys.home sys.world)
  | .pixabaySettles out => sys.set (pixabayCheck_settle (axiosSettle out) sys.home sys.world)
  | .geminiClick => sys.set (geminiButton_click sys.home sys.world)
  | .geminiSettles out => sys.set (geminiCheck_settle (axiosSettle out) sys.home sys.world)
  | .validateFires =>
    { sys with world := validate_start sys.home.input.credentials sys.world }
  | .validateSettles out => sys.set (validate_resume (axiosSettle out) sys.home sys.world)
  | .statusTick => { sys with world := fetchStatus_start sys.world }
  | .statusSettles out => sys.set (fetchStatus_settle (axiosSettle out) sys.home sys.world)

/-- The states the page can be in: the mounted page, and whatever an event makes of
a reachable state. -/
inductive Reachable : System → Prop where
  | init : Reachable System.init
  | step (ev : Event) {sys : System} (before : Reachable sys) : Reachable (step ev sys)

/-! ## The validation effect and its timer (index.js lines 48-69) -/

/-- A pending `setTimeout(validate, 1000)`: the id the browser returned, the time it
is due, and the credentials its `validate` closure captured. -/
structure Timer where
  id : Nat
  due : Nat
  creds : Credentials
  deriving DecidableEq, Repr

/-- The validation effect in time: the clock in milliseconds, the dependency values
of the last run of the effect, every timer pending in the browser, the id the next
`setTimeout` will return, the `timeout` constant of the last run of the effect (the
id its cleanup will clear), and the browser. -/
structure KeyEffect where
  now : Nat
  deps : Credentials
  timers : List Timer
  nextId : Nat
  timeout : Option Nat
  world : World
  deriving DecidableEq, Repr

/-- The cleanup of the effect (line 68): `clearTimeout(timeout)` takes the timer with
that id, and no other, out of the pending ones. -/
def KeyEffect.cleanup (k : KeyEffect) : KeyEffect :=
  match k.timeout with
  | some id => { k with timers := k.timers.filter (fun t => t.id != id) }
  | none => k

/-- The body of the effect for a render with credentials `c` (lines 50-67): it defines
`validate` over `c` and calls `setTimeout(validate, 1000)`, which adds a timer to the
pending ones, whatever is pending already, and returns its id. -/
def KeyEffect.run (c : Credentials) (k : KeyEffect) : KeyEffect :=
  { k with deps := c,
           timers := k.timers ++ [{ id := k.nextId, due := k.now + 1000, creds := c }],
           nextId := k.nextId + 1,
           timeout := some k.nextId }

/-- The page mounts at time `now`: the effect runs for the first time. -/
def KeyEffect.mount (now : Nat) (c : Credentials) (w : World) : KeyEffect :=
  KeyEffect.run c
    { now := now, deps := c, timers := [], nextId := 1, timeout := none, world := w }

/-- React after a render that shows credentials `c`: when a dependency differs from
the last run, the cleanup of that run and then the effect; otherwise nothing. -/
def KeyEffect.render (c : Credentials) (k : KeyEffect) : KeyEffect :=
  if c = k.deps then k else KeyEffect.run c k.cleanup

/-- One millisecond passes: every pending timer that is due by then calls its
`validate`, which posts or returns at once, and is no longer pending. -/
def KeyEffect.tick (k : KeyEffect) : KeyEffect :=
  { k with now := k.now + 1,
           timers := k.timers.filter (fun t => !decide (t.due ≤ k.now + 1)),
           world := (k.timers.filter (fun t => decide (t.due ≤ k.now + 1))).foldl
             (fun w t => validate_start t.creds w) k.world }

/-- The clock advances by `dt` milliseconds. -/
def KeyEffect.wait : Nat → KeyEffect → KeyEffect
  | 0, k => k
  | dt + 1, k => KeyEffect.wait dt k.tick

/-- A run of edits: each entry is the time since the previous event and the
credentials the edit leaves in the form. -/
def KeyEffect.edits : List (Nat × Credentials) → KeyEffect → KeyEffect
  | [], k => k
  | (dt, c) :: rest, k => KeyEffect.edits rest ((k.wait dt).render c)

/-- The credentials in the form after a run of edits that starts with `c`. -/
def finalCredentials : Credentials → List (Nat × Credentials) → Credentials
  | c, [] => c
  | _, (_, c2) :: rest => finalCredentials c2 rest

/-- Whether every edit of a run changes a credential field, starting from `c`. -/
def eachEditChanges : Credentials → List (Nat × Credentials) → Bool
  | _, [] => true
  | c, (_, c2) :: rest => decide (c2 ≠ c) && eachEditChanges c2 rest

/-- Every pending timer is the one the last run of the effect armed: the state of
the effect between events, from the mount on. -/
def KeyEffect.Owned (k : KeyEffect) : Prop :=
  ∀ t ∈ k.timers, k.timeout = some t.id

/-- Exactly one timer is pending, it is the one of the last run of the effect, it is
due in `r` ms and it will validate the credentials in the form. -/
def KeyEffect.Armed (k : KeyEffect) (r : Nat) : Prop :=
  ∃ id, k.timers = [{ id := id, due := k.now + r, creds := k.deps }] ∧ k.timeout = some id

/-! ## The status poller and its timer (index.js lines 36-46) -/

/-- The status effect in time: the clock in milliseconds, the armed `setInterval`
(the time of its next tick; `none` when none is armed), the page and the browser. -/
structure Poller where
  now : Nat
  interval : Option Nat
  home : HomeState
  world : World
  deriving DecidableEq, Repr

/-- The body of the effect, run when the page mounts (lines 38-44): it calls
`fetchStatus()` and arms `setInterval(fetchStatus, 3000)`. -/
def Poller.activate (p : Poller) : Poller :=
  { p with world := fetchStatus_start p.world, interval := some (p.now + 3000) }

/-- The cleanup of the effect, run when the page unmounts (line 45):
`clearInterval(interval)`. -/
def Poller.deactivate (p : Poller) : Poller :=
  { p with interval := none }

/-- One millisecond passes: an armed interval whose tick is due calls `fetchStatus`
and is due again 3000 ms later. -/
def Poller.tick (p : Poller) : Poller :=
  match p.interval with
  | some due =>
    if due ≤ p.now + 1 then
      { p with now := p.now + 1, interval := some (due + 3000),
               world := fetchStatus_start p.world }
    else { p with now := p.now + 1 }
  | none => { p with now := p.now + 1 }

/-- The clock advances by `dt` milliseconds. -/
def Poller.wait : Nat → Poller → Poller
  | 0, p => p
  | dt + 1, p => Poller.wait dt p.tick

/-- The response to a status request settles: the chain of lines 40-41 runs on the
page; the timer is not involved. -/
def Poller.settle (out : HttpOutcome SystemStatus) (p : Poller) : Poller :=
  let sw := fetchStatus_settle (axiosSettle out) p.home p.world
  { p with home := sw.1, world := sw.2 }

/-- How many `/system-status` requests have left the page. -/
def statusFetches (w : World) : Nat :=
  (w.requests.filter (fun r => decide (r.url = systemStatusUrl))).length

/-! ## States used as examples -/

/-- The state of a user who chose a script and a music file and nothing else. -/
def musicState : HomeState :=
  { initialState with
    input := { initialState.input with
      scriptFile := some "script.txt", bgMusicFile := some "nasheed.mp3", bgMusicVolume := 0 } }

/-- The scenario of the specification: script "script.txt", no voiceover, no music,
genre "Vlog", aspect ratio "9:16", voice "Female (Default)", empty competitor URL and
credentials. -/
def scenarioState : HomeState :=
  { initialState with
    input := { initialState.input with
      scriptFile := some "script.txt", genre := "Vlog", aspectRatio := "9:16" } }

/-- The scenario of the specification with an uploaded voiceover added. -/
def voiceoverState : HomeState :=
  { scenarioState with
    input := { scenarioState.input with voiceFile := some "voice.mp3" } }

/-- The initial state after typing only a Gemini endpoint: the three keys are empty. -/
def endpointOnlyState : HomeState :=
  { initialState with
    input := { initialState.input with geminiEndpoint := "https://my-proxy.com" } }

/-- The page after the user chose the scenario's inputs and clicked the render
button: a render is in flight. -/
def inFlightSystem : System :=
  step .renderClick (step (.edit scenarioState.input) System.init)

/-- What ties the busy flag to the network: the render posts sent are the ones
settled, plus one exactly while `loading` is set. -/
def RenderInv (sys : System) : Prop :=
  rendersSent sys.world = sys.rendersSettled + (if sys.home.loading then 1 else 0)

/-- The credentials of the form with only the Pexels key typed. -/
def pexelsOnly (key : String) : Credentials :=
  { geminiKey := "", geminiEndpoint := "", pexelsKey := key, pixabayKey := "" }

/-- The validation effect of a page mounted at time 0. -/
def mountedEffect : KeyEffect :=
  KeyEffect.mount 0 initialState.input.credentials World.empty

/-- Two keystrokes into the Pexels field that follow a first one by 300 ms and by
another 999 ms. -/
def laterKeystrokes : List (Nat × Credentials) :=
  [(300, pexelsOnly "ab"), (999, pexelsOnly "abc")]

/-- A body as the render service returns it. -/
def sampleVideo : Blob :=
  { bytes := [0, 0, 0, 24, 102, 116, 121, 112], type := "application/octet-stream" }

/-- The page with the scenario's render in flight while an earlier video is shown. -/
def inFlightWithVideo : HomeState :=
  { inFlightSystem.home with videoUrl := "blob:earlier" }

/-- What the validation service answers when every key is good. -/
def allKeysGood : KeyStatus :=
  { gemini := true, pexels := true, pixabay := true }

/-- A page about to mount at time 0. -/
def unmountedPoller : Poller :=
  { now := 0, interval := none, home := initialState, world := World.empty }

/-- A snapshot as the status service reports it. -/
def busySnapshot : SystemStatus :=
  { device := "cuda", gpu_available := true, cpu_usage := 91, memory_usage := 40,
    gpu_stats := { name := "RTX 3060", load := 77, memory := 52 } }

/-! ## Facts shared by the results below -/

/-- With a script file present the click posts exactly one request, to
`/generate-video`, carrying the payload of lines 77-94, and sets `loading`. -/
theorem handleSubmit_start_of_script (s : HomeState) (w : World) (f : FileHandle)
    (h : s.input.scriptFile = some f) :
    handleSubmit_start s w =
      ({ s with loading := true },
        { w with requests := w.requests ++
            [{ method := "POST", url := generateVideoUrl,
               body := handleSubmit_formData s.input f }] }) := by
  simp [handleSubmit_start, h, World.post]

/-- The payload of lines 77-94 written out: the script, the voiceover when there is
one, nine unconditional appends, and the two music fields when there is a music file. -/
theorem handleSubmit_formData_eq (i : InputModel) (f : FileHandle) :
    handleSubmit_formData i f =
      [("script", FieldValue.file f)]
        ++ (match i.voiceFile with
            | some v => [("voiceover", FieldValue.file v)]
            | none => [])
        ++ [("competitor_url", .text i.competitorUrl), ("base_genre", .text i.genre),
            ("api_key_pexels", .text i.pexelsKey), ("api_key_pixabay", .text i.pixabayKey),
            ("api_key_gemini", .text i.geminiKey),
            ("api_endpoint_gemini", .text i.geminiEndpoint),
            ("api_endpoint_gemini", .text i.geminiEndpoint),
            ("aspect_ratio", .text i.aspectRatio), ("voice_name", .text i.voiceName)]
        ++ (match i.bgMusicFile with
            | some m => [("background_music", FieldValue.file m),
                         ("bg_music_volume", FieldValue.number i.bgMusicVolume)]
            | none => []) := by
  cases hv : i.voiceFile <;> cases hm : i.bgMusicFile <;>
    simp [handleSubmit_formData, FormData.append, hv, hm]

/-! ## Submission: required script, optional fields -/

/-- C1: for every state whose `scriptFile` is absent, whatever the other fields and
whatever the transport would answer, `handleSubmit` only alerts the user: no request
is dispatched, and `loading`, `videoUrl` and every other state cell stay as they were. -/
theorem handleSubmit_rejects_absent_script (s : HomeState) (w : World)
    (out : HttpOutcome Blob) (h : s.input.scriptFile = none) :
    handleSubmit out s w = (s, { w with alerts := w.alerts ++ ["Please upload a script file"] })
      ∧ handleSubmit_start s w = handleSubmit out s w
      ∧ (handleSubmit out s w).2.requests = w.requests
      ∧ (handleSubmit out s w).1.loading = s.loading
      ∧ (handleSubmit out s w).1.videoUrl = s.videoUrl := by
  simp [handleSubmit, handleSubmit_start, h, World.alert]

/-- C1 at the initial state with a transport that would have answered 200. -/
theorem handleSubmit_rejects_absent_script_witness :
    initialState.input.scriptFile = none
      ∧ (handleSubmit (.response 200 { bytes := [1], type := "video/mp4" })
            initialState World.empty
          = (initialState,
              { World.empty with
                alerts := World.empty.alerts ++ ["Please upload a script file"] })
        ∧ handleSubmit_start initialState World.empty
          = handleSubmit (.response 200 { bytes := [1], type := "video/mp4" })
              initialState World.empty
        ∧ (handleSubmit (.response 200 { bytes := [1], type := "video/mp4" })
              initialState World.empty).2.requests = World.empty.requests
        ∧ (handleSubmit (.response 200 { bytes := [1], type := "video/mp4" })
              initialState World.empty).1.loading = initialState.loading
        ∧ (handleSubmit (.response 200 { bytes := [1], type := "video/mp4" })
              initialState World.empty).1.videoUrl = initialState.videoUrl) :=
  ⟨rfl, handleSubmit_rejects_absent_script initialState World.empty _ rfl⟩

/-- C2: for every state with a script file, the payload `handleSubmit` posts to
`/generate-video` has a `bg_music_volume` field exactly when it has a
`background_music` field, and that is exactly when `bgMusicFile` is present; without
the file the volume is not sent, whatever its value. -/
theorem bg_music_volume_iff_background_music (s : HomeState) (w : World) (f : FileHandle)
    (h : s.input.scriptFile = some f) :
    (handleSubmit_start s w).2.requests = w.requests ++
        [{ method := "POST", url := generateVideoUrl,
           body := handleSubmit_formData s.input f }]
      ∧ ("bg_music_volume" ∈ (handleSubmit_formData s.input f).names
          ↔ "background_music" ∈ (handleSubmit_formData s.input f).names)
      ∧ ("background_music" ∈ (handleSubmit_formData s.input f).names
          ↔ s.input.bgMusicFile ≠ none)
      ∧ (s.input.bgMusicFile = none →
          ∀ v, ("bg_music_volume", v) ∉ handleSubmit_formData s.input f) := by
  refine ⟨by rw [handleSubmit_start_of_script s w f h], ?_, ?_, ?_⟩ <;>
    rw [handleSubmit_formData_eq] <;>
    cases hv : s.input.voiceFile <;> cases hm : s.input.bgMusicFile <;>
    simp [FormData.names]

/-- C2 at a state with a music file and volume 0. -/
theorem bg_music_volume_iff_background_music_witness :
    musicState.input.scriptFile = some "script.txt"
      ∧ ((handleSubmit_start musicState World.empty).2.requests = World.empty.requests ++
          [{ method := "POST", url := generateVideoUrl,
             body := handleSubmit_formData musicState.input "script.txt" }]
        ∧ ("bg_music_volume" ∈ (handleSubmit_formData musicState.input "script.txt").names
            ↔ "background_music" ∈ (handleSubmit_formData musicState.input "script.txt").names)
        ∧ ("background_music" ∈ (handleSubmit_formData musicState.input "script.txt").names
            ↔ musicState.input.bgMusicFile ≠ none)
        ∧ (musicState.input.bgMusicFile = none →
            ∀ v, ("bg_music_volume", v) ∉ handleSubmit_formData musicState.input "script.txt")) :=
  ⟨rfl, bg_music_volume_iff_background_music musicState World.empty "script.txt" rfl⟩

/-- Which name/value pairs the payload has, multiplicity aside: for every state with
a script file and neither voiceover nor music file, a pair is in the payload exactly
when it is one of the nine of `script`, `competitor_url`, `base_genre`,
`api_key_pexels`, `api_key_pixabay`, `api_key_gemini`, `api_endpoint_gemini`,
`aspect_ratio` and `voice_name` with the corresponding input value, and no entry is
named `voiceover`, `background_music` or `bg_music_volume`. -/
theorem payload_without_optional_files (s : HomeState) (w : World) (f : FileHandle)
    (h : s.input.scriptFile = some f) (hv : s.input.voiceFile = none)
    (hm : s.input.bgMusicFile = none) :
    (handleSubmit_start s w).2.requests = w.requests ++
        [{ method := "POST", url := generateVideoUrl,
           body := handleSubmit_formData s.input f }]
      ∧ (∀ e, e ∈ handleSubmit_formData s.input f ↔
          e ∈ [("script", FieldValue.file f),
               ("competitor_url", FieldValue.text s.input.competitorUrl),
               ("base_genre", FieldValue.text s.input.genre),
               ("api_key_pexels", FieldValue.text s.input.pexelsKey),
               ("api_key_pixabay", FieldValue.text s.input.pixabayKey),
               ("api_key_gemini", FieldValue.text s.input.geminiKey),
               ("api_endpoint_gemini", FieldValue.text s.input.geminiEndpoint),
               ("aspect_ratio", FieldValue.text s.input.aspectRatio),
               ("voice_name", FieldValue.text s.input.voiceName)])
      ∧ "voiceover" ∉ (handleSubmit_formData s.input f).names
      ∧ "background_music" ∉ (handleSubmit_formData s.input f).names
      ∧ "bg_music_volume" ∉ (handleSubmit_formData s.input f).names := by
  refine ⟨by rw [handleSubmit_start_of_script s w f h], ?_, ?_, ?_, ?_⟩
  · intro e
    rw [handleSubmit_formData_eq, hv, hm]
    simp only [List.append_nil, List.nil_append, List.cons_append, List.mem_cons,
      List.mem_singleton, List.not_mem_nil, or_false]
    tauto
  all_goals
    rw [handleSubmit_formData_eq, hv, hm]
    simp [FormData.names]

/-- C3: at the scenario of the specification (script "script.txt", no voiceover, no
music, genre "Vlog", aspect ratio "9:16", voice "Female (Default)", everything else
empty) the payload `handleSubmit` posts does not consist of exactly the nine listed
fields: it has ten entries, the nine listed ones with their input values and
`api_endpoint_gemini` a second time. -/
theorem scenario_payload_has_ten_entries :
    scenarioState.input.scriptFile = some "script.txt"
      ∧ scenarioState.input.voiceFile = none
      ∧ scenarioState.input.bgMusicFile = none
      ∧ (handleSubmit_start scenarioState World.empty).2.requests =
          [{ method := "POST", url := generateVideoUrl,
             body := handleSubmit_formData scenarioState.input "script.txt" }]
      ∧ handleSubmit_formData scenarioState.input "script.txt" =
          [("script", FieldValue.file "script.txt"),
           ("competitor_url", FieldValue.text ""),
           ("base_genre", FieldValue.text "Vlog"),
           ("api_key_pexels", FieldValue.text ""),
           ("api_key_pixabay", FieldValue.text ""),
           ("api_key_gemini", FieldValue.text ""),
           ("api_endpoint_gemini", FieldValue.text ""),
           ("api_endpoint_gemini", FieldValue.text ""),
           ("aspect_ratio", FieldValue.text "9:16"),
           ("voice_name", FieldValue.text "Female (Default)")]
      ∧ (handleSubmit_formData scenarioState.input "script.txt").length = 10
      ∧ handleSubmit_formData scenarioState.input "script.txt" ≠
          [("script", FieldValue.file "script.txt"),
           ("competitor_url", FieldValue.text ""),
           ("base_genre", FieldValue.text "Vlog"),
           ("api_key_pexels", FieldValue.text ""),
           ("api_key_pixabay", FieldValue.text ""),
           ("api_key_gemini", FieldValue.text ""),
           ("api_endpoint_gemini", FieldValue.text ""),
           ("aspect_ratio", FieldValue.text "9:16"),
           ("voice_name", FieldValue.text "Female (Default)")] := by
  decide

/-- C5: at the scenario of the specification the payload names
`api_endpoint_gemini` twice (lines 87 and 88 both append it), so not every field
name occurs exactly once; the other eight names occur once. -/
theorem api_endpoint_gemini_appended_twice :
    (handleSubmit_formData scenarioState.input "script.txt").names =
        ["script", "competitor_url", "base_genre", "api_key_pexels", "api_key_pixabay",
         "api_key_gemini", "api_endpoint_gemini", "api_endpoint_gemini", "aspect_ratio",
         "voice_name"]
      ∧ (handleSubmit_formData scenarioState.input "script.txt").names.count
          "api_endpoint_gemini" = 2
      ∧ ¬ (handleSubmit_formData scenarioState.input "script.txt").names.Nodup := by
  decide

/-- C6, the claim fails: with a voiceover uploaded the posted payload carries the
`voiceover` field and also `voice_name`. -/
theorem voice_name_sent_with_voiceover :
    voiceoverState.input.scriptFile = some "script.txt"
      ∧ voiceoverState.input.voiceFile = some "voice.mp3"
      ∧ (handleSubmit_start voiceoverState World.empty).2.requests =
          [{ method := "POST", url := generateVideoUrl,
             body := handleSubmit_formData voiceoverState.input "script.txt" }]
      ∧ ("voiceover", FieldValue.file "voice.mp3")
          ∈ handleSubmit_formData voiceoverState.input "script.txt"
      ∧ ("voice_name", FieldValue.text "Female (Default)")
          ∈ handleSubmit_formData voiceoverState.input "script.txt" := by
  decide

/-- C6 as amended: for every state with a script file, `handleSubmit` submits
`voice_name` with the current `voiceName`, exactly once, whether or not a voiceover
is uploaded; `voiceover` is submitted exactly when `voiceFile` is present, so with a
voiceover the payload carries both fields. -/
theorem voice_name_always_sent (s : HomeState) (w : World) (f : FileHandle)
    (h : s.input.scriptFile = some f) :
    (handleSubmit_start s w).2.requests = w.requests ++
        [{ method := "POST", url := generateVideoUrl,
           body := handleSubmit_formData s.input f }]
      ∧ ("voice_name", FieldValue.text s.input.voiceName) ∈ handleSubmit_formData s.input f
      ∧ (handleSubmit_formData s.input f).names.count "voice_name" = 1
      ∧ ("voiceover" ∈ (handleSubmit_formData s.input f).names ↔ s.input.voiceFile ≠ none)
      ∧ (∀ v, s.input.voiceFile = some v →
          ("voiceover", FieldValue.file v) ∈ handleSubmit_formData s.input f
            ∧ ("voice_name", FieldValue.text s.input.voiceName)
                ∈ handleSubmit_formData s.input f) := by
  refine ⟨by rw [handleSubmit_start_of_script s w f h], ?_, ?_, ?_, ?_⟩
  · rw [handleSubmit_formData_eq]; simp
  · rw [handleSubmit_formData_eq]
    cases hv : s.input.voiceFile <;> cases hm : s.input.bgMusicFile <;>
      simp [FormData.names, List.count_cons]
  · rw [handleSubmit_formData_eq]
    cases hv : s.input.voiceFile <;> cases hm : s.input.bgMusicFile <;>
      simp [FormData.names]
  · intro v hv
    rw [handleSubmit_formData_eq, hv]
    simp

/-- C6 as amended, at the state with an uploaded voiceover. -/
theorem voice_name_always_sent_witness :
    voiceoverState.input.voiceFile = some "voice.mp3"
      ∧ ("voice_name", FieldValue.text voiceoverState.input.voiceName)
        ∈ handleSubmit_formData voiceoverState.input "script.txt"
      ∧ (handleSubmit_formData voiceoverState.input "script.txt").names.count "voice_name" = 1
      ∧ ("voiceover", FieldValue.file "voice.mp3")
        ∈ handleSubmit_formData voiceoverState.input "script.txt" :=
  ⟨rfl, (voice_name_always_sent voiceoverState World.empty "script.txt" rfl).2.1,
    (voice_name_always_sent voiceoverState World.empty "script.txt" rfl).2.2.1,
    ((voice_name_always_sent voiceoverState World.empty "script.txt" rfl).2.2.2.2
      "voice.mp3" rfl).1⟩

/-! ## Key validation: failures and the empty-keys rule -/

/-- C7: a rejected Pexels or Pixabay check is not caught. Their chains are
`.then(...).finally(...)` with no `.catch`, so the rejection leaves the chain as an
unhandled rejection, while the Gemini chain (which has `.catch`) and the debounced
`validate` (which has `try`/`catch`) log it and report nothing unhandled. In all four
`keyStatus` keeps its value. -/
theorem explicit_check_rejection_unhandled (s : HomeState) (w : World) (e : AxiosError) :
    (pexelsCheck_settle (.rejected e) s w).2.unhandledRejections
        = w.unhandledRejections ++ [e]
      ∧ (pixabayCheck_settle (.rejected e) s w).2.unhandledRejections
        = w.unhandledRejections ++ [e]
      ∧ (geminiCheck_settle (.rejected e) s w).2.unhandledRejections = w.unhandledRejections
      ∧ (validate_resume (.rejected e) s w).2.unhandledRejections = w.unhandledRejections
      ∧ (pexelsCheck_settle (.rejected e) s w).1.keyStatus = s.keyStatus
      ∧ (pixabayCheck_settle (.rejected e) s w).1.keyStatus = s.keyStatus
      ∧ (geminiCheck_settle (.rejected e) s w).1.keyStatus = s.keyStatus
      ∧ (validate_resume (.rejected e) s w).1.keyStatus = s.keyStatus := by
  simp [pexelsCheck_settle, pixabayCheck_settle, geminiCheck_settle, validate_resume,
    promiseThen, promiseCatch, promiseFinally, promiseEnd, World.consoleError]

/-- C8, the claim fails: at the initial state, where all three keys are empty, a
click on the Pexels Check button posts a `/validate-keys` request. -/
theorem explicit_check_posts_with_empty_keys :
    initialState.input.geminiKey = "" ∧ initialState.input.pexelsKey = ""
      ∧ initialState.input.pixabayKey = ""
      ∧ (pexelsButton_click initialState World.empty).2.requests =
          [{ method := "POST", url := validateKeysUrl,
             body := [("api_key_pexels", FieldValue.text "")] }] := by
  decide

/-- C8 as amended: whenever the three keys are empty, the debounced `validate`
posts nothing, for every `geminiEndpoint`; each explicit check posts its own
`/validate-keys` request all the same. -/
theorem validate_silent_on_empty_keys (s : HomeState) (w : World)
    (hg : s.input.geminiKey = "") (hp : s.input.pexelsKey = "")
    (hx : s.input.pixabayKey = "") :
    validate_start s.input.credentials w = w
      ∧ (pexelsCheck_onClick s w).2.requests = w.requests ++
          [{ method := "POST", url := validateKeysUrl,
             body := [("api_key_pexels", FieldValue.text "")] }]
      ∧ (pixabayCheck_onClick s w).2.requests = w.requests ++
          [{ method := "POST", url := validateKeysUrl,
             body := [("api_key_pixabay", FieldValue.text "")] }]
      ∧ (geminiCheck_onClick s w).2.requests = w.requests ++
          [{ method := "POST", url := validateKeysUrl,
             body := [("api_key_gemini", FieldValue.text ""),
                      ("api_endpoint_gemini", FieldValue.text s.input.geminiEndpoint)] }] := by
  simp [validate_start, InputModel.credentials, pexelsCheck_onClick, pixabayCheck_onClick,
    geminiCheck_onClick, World.post, FormData.append, hg, hp, hx]

/-- C8 as amended, at a state with a Gemini endpoint typed and no key. -/
theorem validate_silent_on_empty_keys_witness :
    endpointOnlyState.input.geminiEndpoint = "https://my-proxy.com"
      ∧ validate_start endpointOnlyState.input.credentials World.empty = World.empty
      ∧ (geminiCheck_onClick endpointOnlyState World.empty).2.requests = World.empty.requests ++
          [{ method := "POST", url := validateKeysUrl,
             body := [("api_key_gemini", FieldValue.text ""),
                      ("api_endpoint_gemini",
                        FieldValue.text endpointOnlyState.input.geminiEndpoint)] }] :=
  ⟨rfl, (validate_silent_on_empty_keys endpointOnlyState World.empty rfl rfl rfl).1,
    (validate_silent_on_empty_keys endpointOnlyState World.empty rfl rfl rfl).2.2.2⟩

/-! ## One render at a time -/

theorem rendersSent_append (w : World) (r : Request) :
    rendersSent { w with requests := w.requests ++ [r] } =
      rendersSent w + (if r.url = generateVideoUrl then 1 else 0) := by
  by_cases h : r.url = generateVideoUrl <;> simp [rendersSent, List.filter_append, h]

/-- The handlers of the key checks, of `validate` and of the status poll leave
`loading` alone and send no render post. -/
theorem other_handlers_frame (s : HomeState) (w : World) :
    ((pexelsButton_click s w).1.loading = s.loading
        ∧ rendersSent (pexelsButton_click s w).2 = rendersSent w)
      ∧ ((pixabayButton_click s w).1.loading = s.loading
        ∧ rendersSent (pixabayButton_click s w).2 = rendersSent w)
      ∧ ((geminiButton_click s w).1.loading = s.loading
        ∧ rendersSent (geminiButton_click s w).2 = rendersSent w)
      ∧ rendersSent (validate_start s.input.credentials w) = rendersSent w
      ∧ rendersSent (fetchStatus_start w) = rendersSent w := by
  have hv : validateKeysUrl ≠ generateVideoUrl := by decide
  have hs : systemStatusUrl ≠ generateVideoUrl := by decide
  refine ⟨?_, ?_, ?_, ?_, ?_⟩
  · unfold pexelsButton_click pexelsCheck_onClick World.post
    split <;> simp [rendersSent_append, hv]
  · unfold pixabayButton_click pixabayCheck_onClick World.post
    split <;> simp [rendersSent_append, hv]
  · unfold geminiButton_click geminiCheck_onClick World.post
    split <;> simp [rendersSent_append, hv]
  · unfold validate_start World.post
    split <;> simp [rendersSent_append, hv]
  · unfold fetchStatus_start World.get
    simp [rendersSent_append, hs]

/-- The continuations of the key checks, of `validate` and of the status poll leave
`loading` and the list of requests alone. -/
theorem other_settles_frame (s : HomeState) (w : World) (rk : Settled KeyStatus)
    (rs : Settled SystemStatus) :
    ((pexelsCheck_settle rk s w).1.loading = s.loading
        ∧ (pexelsCheck_settle rk s w).2.requests = w.requests)
      ∧ ((pixabayCheck_settle rk s w).1.loading = s.loading
        ∧ (pixabayCheck_settle rk s w).2.requests = w.requests)
      ∧ ((geminiCheck_settle rk s w).1.loading = s.loading
        ∧ (geminiCheck_settle rk s w).2.requests = w.requests)
      ∧ ((validate_resume rk s w).1.loading = s.loading
        ∧ (validate_resume rk s w).2.requests = w.requests)
      ∧ ((fetchStatus_settle rs s w).1.loading = s.loading
        ∧ (fetchStatus_settle rs s w).2.requests = w.requests) := by
  cases rk <;> cases rs <;>
    simp [pexelsCheck_settle, pixabayCheck_settle, geminiCheck_settle, validate_resume,
      fetchStatus_settle, promiseThen, promiseCatch, promiseFinally, promiseEnd,
      World.consoleError]

theorem rendersSent_congr {w w2 : World} (h : w2.requests = w.requests) :
    rendersSent w2 = rendersSent w := by
  simp [rendersSent, h]

/-- The continuation of `handleSubmit` clears `loading` and sends nothing. -/
theorem handleSubmit_resume_frame (res : Settled Blob) (s : HomeState) (w : World) :
    (handleSubmit_resume res s w).1.loading = false
      ∧ (handleSubmit_resume res s w).2.requests = w.requests := by
  cases res <;>
    simp [handleSubmit_resume, World.createObjectURL, World.consoleError, World.alert]

/-- The three ways a click on the render button can go: ignored while `loading`,
refused with an alert without a script file, or taken. -/
theorem renderButton_click_cases (s : HomeState) (w : World) :
    (s.loading = true → renderButton_click s w = (s, w))
      ∧ (s.loading = false → s.input.scriptFile = none →
          (renderButton_click s w).1 = s ∧ (renderButton_click s w).2.requests = w.requests)
      ∧ (s.loading = false → ∀ f, s.input.scriptFile = some f →
          renderButton_click s w =
            ({ s with loading := true },
              { w with requests := w.requests ++
                  [{ method := "POST", url := generateVideoUrl,
                     body := handleSubmit_formData s.input f }] })) := by
  refine ⟨?_, ?_, ?_⟩
  · intro hl; simp [renderButton_click, hl]
  · intro hl hsf; simp [renderButton_click, hl, handleSubmit_start, hsf, World.alert]
  · intro hl f hsf
    simp [renderButton_click, hl, handleSubmit_start_of_script s w f hsf]

/-- Every event keeps the tie between `loading` and the render posts. -/
theorem RenderInv_step (ev : Event) (sys : System) (h : RenderInv sys) :
    RenderInv (step ev sys) := by
  unfold RenderInv at *
  obtain ⟨hpe, hpi, hge, hva, hst⟩ := other_handlers_frame sys.home sys.world
  cases ev with
  | edit i => simpa [step] using h
  | renderClick =>
    simp only [step, System.set]
    obtain ⟨c1, c2, c3⟩ := renderButton_click_cases sys.home sys.world
    rcases Bool.eq_false_or_eq_true sys.home.loading with hl | hl
    · simp only [c1 hl]; exact h
    · simp only [hl] at h
      cases hsf : sys.home.input.scriptFile with
      | none =>
        obtain ⟨e1, e2⟩ := c2 hl hsf
        simp only [e1, rendersSent_congr e2, hl]
        exact h
      | some f =>
        simp only [c3 hl f hsf, rendersSent_append, if_true]
        simp at h
        omega
  | renderSettles out =>
    simp only [step, System.set, System.outstandingRenders]
    obtain ⟨h1, h2⟩ := handleSubmit_resume_frame (axiosSettle out) sys.home sys.world
    split
    · rename_i hpos
      simp only [h1, rendersSent_congr h2]
      cases hl : sys.home.loading
      · simp [hl] at h; omega
      · simp [hl] at h; simp; omega
    · exact h
  | pexelsClick => simp only [step, System.set, hpe.1, hpe.2]; exact h
  | pixabayClick => simp only [step, System.set, hpi.1, hpi.2]; exact h
  | geminiClick => simp only [step, System.set, hge.1, hge.2]; exact h
  | validateFires => simp only [step, hva]; exact h
  | statusTick => simp only [step, hst]; exact h
  | pexelsSettles out =>
    obtain ⟨⟨a, b⟩, -⟩ := other_settles_frame sys.home sys.world (axiosSettle out) (.fulfilled sys.home.systemStatus)
    simp only [step, System.set, a, rendersSent_congr b]; exact h
  | pixabaySettles out =>
    obtain ⟨-, ⟨a, b⟩, -⟩ := other_settles_frame sys.home sys.world (axiosSettle out) (.fulfilled sys.home.systemStatus)
    simp only [step, System.set, a, rendersSent_congr b]; exact h
  | geminiSettles out =>
    obtain ⟨-, -, ⟨a, b⟩, -⟩ := other_settles_frame sys.home sys.world (axiosSettle out) (.fulfilled sys.home.systemStatus)
    simp only [step, System.set, a, rendersSent_congr b]; exact h
  | validateSettles out =>
    obtain ⟨-, -, -, ⟨a, b⟩, -⟩ := other_settles_frame sys.home sys.world (axiosSettle out) (.fulfilled sys.home.systemStatus)
    simp only [step, System.set, a, rendersSent_congr b]; exact h
  | statusSettles out =>
    obtain ⟨-, -, -, -, ⟨a, b⟩⟩ := other_settles_frame sys.home sys.world (.fulfilled sys.home.keyStatus) (axiosSettle out)
    simp only [step, System.set, a, rendersSent_congr b]; exact h

/-- The tie holds in every reachable state. -/
theorem RenderInv_of_reachable {sys : System} (h : Reachable sys) : RenderInv sys := by
  induction h with
  | init => simp [RenderInv, System.init, rendersSent, World.empty, initialState]
  | step ev _ ih => exact RenderInv_step ev _ ih

/-- C4: in every reachable state of the page, a click on the render button while a
render is in flight (`loading = true`) changes nothing and posts nothing; at most one
`/generate-video` post is outstanding, and one is outstanding exactly while `loading`
is set; and when the outstanding render settles, completed or failed, `loading` is
cleared, nothing is outstanding, and the next click with a script file posts again. -/
theorem render_click_ignored_while_in_flight (sys : System) (hr : Reachable sys) :
    (sys.home.loading = true → step .renderClick sys = sys)
      ∧ sys.outstandingRenders ≤ 1
      ∧ (sys.home.loading = true ↔ sys.outstandingRenders = 1)
      ∧ (sys.home.loading = true → ∀ out f, sys.home.input.scriptFile = some f →
          (step (.renderSettles out) sys).home.loading = false
            ∧ (step (.renderSettles out) sys).outstandingRenders = 0
            ∧ (step .renderClick (step (.renderSettles out) sys)).world.requests =
                (step (.renderSettles out) sys).world.requests ++
                  [{ method := "POST", url := generateVideoUrl,
                     body := handleSubmit_formData sys.home.input f }]
            ∧ (step .renderClick (step (.renderSettles out) sys)).outstandingRenders = 1) := by
  have hinv := RenderInv_of_reachable hr
  have hout : sys.outstandingRenders = if sys.home.loading then 1 else 0 := by
    unfold RenderInv at hinv
    unfold System.outstandingRenders
    omega
  refine ⟨?_, ?_, ?_, ?_⟩
  · intro hl
    simp [step, System.set, renderButton_click, hl]
  · rw [hout]; split <;> omega
  · rw [hout]; cases sys.home.loading <;> simp
  · intro hl out f hsf
    have hafter : Reachable (step (.renderSettles out) sys) := .step _ hr
    have hafter2 : Reachable (step .renderClick (step (.renderSettles out) sys)) := .step _ hafter
    have hpos : 0 < sys.outstandingRenders := by rw [hout, hl]; simp
    obtain ⟨h1, h2⟩ := handleSubmit_resume_frame (axiosSettle out) sys.home sys.world
    have hinput : (step (.renderSettles out) sys).home.input = sys.home.input := by
      cases hs : axiosSettle out <;>
        simp [step, hpos, System.set, handleSubmit_resume, hs, World.createObjectURL,
          World.consoleError, World.alert]
    have hload : (step (.renderSettles out) sys).home.loading = false := by
      simp [step, hpos, System.set, h1]
    have hsf2 : (step (.renderSettles out) sys).home.input.scriptFile = some f := by
      rw [hinput]; exact hsf
    have hclick := (renderButton_click_cases (step (.renderSettles out) sys).home
      (step (.renderSettles out) sys).world).2.2 hload f hsf2
    have hinv1 := RenderInv_of_reachable hafter
    have hinv2 := RenderInv_of_reachable hafter2
    have hload2 : (step .renderClick (step (.renderSettles out) sys)).home.loading = true := by
      show (renderButton_click (step (.renderSettles out) sys).home
        (step (.renderSettles out) sys).world).1.loading = true
      rw [hclick]
    refine ⟨hload, ?_, ?_, ?_⟩
    · unfold RenderInv at hinv1
      unfold System.outstandingRenders
      rw [hload] at hinv1
      simp at hinv1
      omega
    · show (renderButton_click (step (.renderSettles out) sys).home
        (step (.renderSettles out) sys).world).2.requests = _
      rw [hclick, hinput]
    · unfold RenderInv at hinv2
      unfold System.outstandingRenders
      rw [hload2] at hinv2
      simp at hinv2
      omega

/-- C4 at the page with the scenario's render in flight. -/
theorem render_click_ignored_while_in_flight_witness :
    Reachable inFlightSystem
      ∧ inFlightSystem.home.loading = true
      ∧ step .renderClick inFlightSystem = inFlightSystem
      ∧ inFlightSystem.outstandingRenders ≤ 1 :=
  ⟨.step _ (.step _ .init), by decide,
    (render_click_ignored_while_in_flight inFlightSystem (.step _ (.step _ .init))).1
      (by decide),
    (render_click_ignored_while_in_flight inFlightSystem (.step _ (.step _ .init))).2.1⟩

/-! ## A failed render -/

/-- A failed call makes axios reject. -/
theorem axiosSettle_of_failed {α : Type} (out : HttpOutcome α) (h : out.failed = true) :
    ∃ e, axiosSettle out = .rejected e := by
  cases out with
  | response status data =>
    by_cases hs : 200 ≤ status ∧ status < 300
    · simp [HttpOutcome.failed, hs.1, hs.2] at h
    · exact ⟨.badStatus status, by simp [axiosSettle, hs]⟩
  | failure msg => exact ⟨.network msg, rfl⟩

/-- C10: for every state, so for every state with a render in flight
(`loading = true`), when the `/generate-video` call fails (transport failure or a status outside 200..299) the
continuation of `handleSubmit` clears `loading`, shows the alert "Error generating
video", sends nothing and changes no other state cell, so `videoUrl` is what it was;
and over a whole run from a state with a script file, `videoUrl` ends as it was
before the render started. -/
theorem failed_render_keeps_video (s : HomeState) (w : World) (out : HttpOutcome Blob)
    (hf : out.failed = true) :
    (handleSubmit_resume (axiosSettle out) s w).1 = { s with loading := false }
      ∧ (handleSubmit_resume (axiosSettle out) s w).1.loading = false
      ∧ (handleSubmit_resume (axiosSettle out) s w).1.videoUrl = s.videoUrl
      ∧ (handleSubmit_resume (axiosSettle out) s w).2.alerts
          = w.alerts ++ ["Error generating video"]
      ∧ (handleSubmit_resume (axiosSettle out) s w).2.requests = w.requests
      ∧ (handleSubmit_resume (axiosSettle out) s w).2.objectUrls = w.objectUrls
      ∧ (∀ s0 w0 f, s0.input.scriptFile = some f →
          (handleSubmit_start s0 w0).1.loading = true
            ∧ (handleSubmit out s0 w0).1.loading = false
            ∧ (handleSubmit out s0 w0).1.videoUrl = s0.videoUrl
            ∧ (handleSubmit out s0 w0).2.alerts = w0.alerts ++ ["Error generating video"]) := by
  obtain ⟨e, he⟩ := axiosSettle_of_failed out hf
  refine ⟨?_, ?_, ?_, ?_, ?_, ?_, ?_⟩
  · simp [handleSubmit_resume, he]
  · simp [handleSubmit_resume, he]
  · simp [handleSubmit_resume, he]
  · simp [handleSubmit_resume, he, World.consoleError, World.alert]
  · simp [handleSubmit_resume, he, World.consoleError, World.alert]
  · simp [handleSubmit_resume, he, World.consoleError, World.alert]
  · intro s0 w0 f hsf
    simp [handleSubmit, hsf, handleSubmit_start_of_script s0 w0 f hsf, handleSubmit_resume, he,
      World.consoleError, World.alert]

/-- C10 at the page with the scenario's render in flight and a 500 answer. -/
theorem failed_render_keeps_video_witness :
    inFlightSystem.home.loading = true
      ∧ (handleSubmit_resume
          (axiosSettle (.response 500 { bytes := [], type := "text/plain" }))
          inFlightSystem.home inFlightSystem.world).1.loading = false
      ∧ (handleSubmit_resume
          (axiosSettle (.response 500 { bytes := [], type := "text/plain" }))
          inFlightSystem.home inFlightSystem.world).1.videoUrl = inFlightSystem.home.videoUrl
      ∧ (handleSubmit_resume
          (axiosSettle (.response 500 { bytes := [], type := "text/plain" }))
          inFlightSystem.home inFlightSystem.world).2.alerts
          = inFlightSystem.world.alerts ++ ["Error generating video"] :=
  ⟨by decide,
    (failed_render_keeps_video inFlightSystem.home inFlightSystem.world
      (.response 500 { bytes := [], type := "text/plain" }) (by decide)).2.1,
    (failed_render_keeps_video inFlightSystem.home inFlightSystem.world
      (.response 500 { bytes := [], type := "text/plain" }) (by decide)).2.2.1,
    (failed_render_keeps_video inFlightSystem.home inFlightSystem.world
      (.response 500 { bytes := [], type := "text/plain" }) (by decide)).2.2.2.1⟩

/-! ## Debounce -/

/-- A tick never touches the dependency values, the `timeout` constant or the ids. -/
theorem KeyEffect.tick_frame (k : KeyEffect) :
    k.tick.deps = k.deps ∧ k.tick.timeout = k.timeout ∧ k.tick.nextId = k.nextId
      ∧ k.tick.now = k.now + 1 :=
  ⟨rfl, rfl, rfl, rfl⟩

/-- Waiting never touches the dependency values. -/
theorem KeyEffect.wait_deps (t : Nat) : ∀ k : KeyEffect, (k.wait t).deps = k.deps := by
  induction t with
  | zero => intro k; rfl
  | succ t ih =>
    intro k
    show (KeyEffect.wait t k.tick).deps = k.deps
    rw [ih k.tick]
    rfl

/-- Waiting in two steps is waiting once for the sum. -/
theorem KeyEffect.wait_wait (t u : Nat) : ∀ k : KeyEffect, (k.wait t).wait u = k.wait (t + u) := by
  induction t with
  | zero => intro k; simp [KeyEffect.wait]
  | succ t ih =>
    intro k
    have h : t + 1 + u = (t + u) + 1 := by omega
    rw [h]
    show (KeyEffect.wait t k.tick).wait u = KeyEffect.wait (t + u) k.tick
    exact ih k.tick

/-- With nothing pending, time passes without a request. -/
theorem KeyEffect.wait_of_idle (t : Nat) :
    ∀ k : KeyEffect, k.timers = [] → (k.wait t).world = k.world ∧ (k.wait t).timers = [] := by
  induction t with
  | zero => intro k h; exact ⟨rfl, h⟩
  | succ t ih =>
    intro k h
    have h1 : k.tick.timers = [] := by simp [KeyEffect.tick, h]
    have h2 : k.tick.world = k.world := by simp [KeyEffect.tick, h]
    obtain ⟨a, b⟩ := ih k.tick h1
    exact ⟨by show (KeyEffect.wait t k.tick).world = _; rw [a, h2], b⟩

/-- The mounted page has exactly the timer of its first effect run pending. -/
theorem KeyEffect.mount_armed (now : Nat) (c : Credentials) (w : World) :
    (KeyEffect.mount now c w).Armed 1000 ∧ (KeyEffect.mount now c w).Owned := by
  refine ⟨⟨1, rfl, rfl⟩, ?_⟩
  intro t ht
  simp [KeyEffect.mount, KeyEffect.run] at ht
  simp [KeyEffect.mount, KeyEffect.run, ht]

/-- A state with its one timer armed owns every pending timer. -/
theorem KeyEffect.Armed.owned {k : KeyEffect} {r : Nat} (h : k.Armed r) : k.Owned := by
  obtain ⟨id, h1, h2⟩ := h
  intro t ht
  rw [h1] at ht
  simp at ht
  rw [h2, ht]

/-- Time keeps the pending timers owned. -/
theorem KeyEffect.wait_owned (t : Nat) : ∀ k : KeyEffect, k.Owned → (k.wait t).Owned := by
  induction t with
  | zero => intro k h; exact h
  | succ t ih =>
    intro k h
    apply ih k.tick
    intro x hx
    have hx2 : x ∈ k.timers := by
      simp only [KeyEffect.tick, List.mem_filter] at hx
      exact hx.1
    exact h x hx2

/-- The cleanup of an effect that owns every pending timer leaves nothing pending. -/
theorem KeyEffect.cleanup_of_owned (k : KeyEffect) (h : k.Owned) :
    k.cleanup.timers = [] ∧ k.cleanup.world = k.world ∧ k.cleanup.now = k.now
      ∧ k.cleanup.nextId = k.nextId := by
  unfold KeyEffect.cleanup
  cases hk : k.timeout with
  | none =>
    refine ⟨?_, rfl, rfl, rfl⟩
    cases ht : k.timers with
    | nil => rfl
    | cons x xs =>
      have := h x (by rw [ht]; simp)
      rw [hk] at this
      cases this
  | some id =>
    refine ⟨?_, rfl, rfl, rfl⟩
    show k.timers.filter (fun t => t.id != id) = []
    rw [List.filter_eq_nil_iff]
    intro x hx
    have := h x hx
    rw [hk] at this
    simp only [Option.some.injEq] at this
    simp [this]

/-- An edit that changes a credential, on an effect that owns every pending timer,
leaves exactly its own timer pending, due in 1000 ms, and sends nothing. -/
theorem KeyEffect.render_armed (c : Credentials) (k : KeyEffect) (ho : k.Owned)
    (h : c ≠ k.deps) :
    (k.render c).Armed 1000 ∧ (k.render c).world = k.world ∧ (k.render c).deps = c
      ∧ (k.render c).now = k.now := by
  obtain ⟨c1, c2, c3, c4⟩ := KeyEffect.cleanup_of_owned k ho
  have hr : k.render c = KeyEffect.run c k.cleanup := by simp [KeyEffect.render, h]
  rw [hr]
  refine ⟨⟨k.cleanup.nextId, ?_, rfl⟩, c2, rfl, c3⟩
  simp [KeyEffect.run, c1]

/-- Every render keeps the pending timers owned, so from the mount on every state
of the effect owns its pending timers. -/
theorem KeyEffect.render_owned (c : Credentials) (k : KeyEffect) (ho : k.Owned) :
    (k.render c).Owned := by
  by_cases h : c = k.deps
  · simpa [KeyEffect.render, h] using ho
  · exact (KeyEffect.render_armed c k ho h).1.owned

/-- A tick before the one timer is due changes only the clock. -/
theorem KeyEffect.tick_armed_early (k : KeyEffect) (r : Nat) (ha : k.Armed (r + 2)) :
    k.tick.Armed (r + 1) ∧ k.tick.world = k.world := by
  obtain ⟨id, h1, h2⟩ := ha
  have hd : ¬ k.now + (r + 2) ≤ k.now + 1 := by omega
  refine ⟨⟨id, ?_, h2⟩, ?_⟩
  · show k.timers.filter (fun t => !decide (t.due ≤ k.now + 1)) = _
    rw [h1]
    simp only [List.filter_cons, List.filter_nil, hd, decide_False, Bool.not_false, if_true]
    show _ = [{ id := id, due := k.now + 1 + (r + 1), creds := k.deps }]
    have : k.now + (r + 2) = k.now + 1 + (r + 1) := by omega
    rw [this]
  · show (k.timers.filter (fun t => decide (t.due ≤ k.now + 1))).foldl _ k.world = k.world
    rw [h1]
    simp [hd]

/-- The tick at which the one timer is due runs its `validate` and leaves nothing
pending. -/
theorem KeyEffect.tick_armed_due (k : KeyEffect) (ha : k.Armed 1) :
    k.tick.timers = [] ∧ k.tick.world = validate_start k.deps k.world := by
  obtain ⟨id, h1, h2⟩ := ha
  refine ⟨?_, ?_⟩
  · show k.timers.filter (fun t => !decide (t.due ≤ k.now + 1)) = []
    rw [h1]
    simp
  · show (k.timers.filter (fun t => decide (t.due ≤ k.now + 1))).foldl _ k.world = _
    rw [h1]
    simp

/-- With the one timer due in `r + 1` ms, `validate` has run exactly once `t` ms later
if `r < t`, and not at all before. -/
theorem KeyEffect.wait_armed_world (t : Nat) :
    ∀ (k : KeyEffect) (r : Nat), k.Armed (r + 1) →
      (k.wait t).world = if r < t then validate_start k.deps k.world else k.world := by
  induction t with
  | zero => intro k r _; simp [KeyEffect.wait]
  | succ t ih =>
    intro k r ha
    show (KeyEffect.wait t k.tick).world = _
    cases r with
    | zero =>
      obtain ⟨h1, h2⟩ := KeyEffect.tick_armed_due k ha
      rw [(KeyEffect.wait_of_idle t k.tick h1).1, h2]
      simp
    | succ r =>
      obtain ⟨h1, h2⟩ := KeyEffect.tick_armed_early k r ha
      rw [ih k.tick r h1, h2]
      have hd : k.tick.deps = k.deps := rfl
      rw [hd]
      by_cases hrt : r < t
      · have : r + 1 < t + 1 := by omega
        simp [hrt, this]
      · have : ¬ r + 1 < t + 1 := by omega
        simp [hrt, this]

/-- With the one timer due in `r` ms, less than `r` ms pass with the timer still the
only one pending and nothing sent. -/
theorem KeyEffect.wait_armed_lt (t : Nat) :
    ∀ (k : KeyEffect) (r : Nat), k.Armed r → t < r →
      (k.wait t).Armed (r - t) ∧ (k.wait t).world = k.world := by
  induction t with
  | zero => intro k r ha _; exact ⟨ha, rfl⟩
  | succ t ih =>
    intro k r ha ht
    obtain ⟨q, hq⟩ : ∃ q, r = q + 2 := ⟨r - 2, by omega⟩
    subst hq
    obtain ⟨h1, h2⟩ := KeyEffect.tick_armed_early k q ha
    obtain ⟨a, b⟩ := ih k.tick (q + 1) h1 (by omega)
    have he : q + 2 - (t + 1) = q + 1 - t := by omega
    rw [he]
    exact ⟨a, by show (KeyEffect.wait t k.tick).world = _; rw [b, h2]⟩

/-- Edits that each come less than 1000 ms after the timer was armed and each change
a credential keep one timer pending, armed for the latest credentials, and send
nothing. -/
theorem KeyEffect.edits_armed (rest : List (Nat × Credentials)) :
    ∀ k : KeyEffect, k.Armed 1000 → (∀ e ∈ rest, e.1 < 1000) →
      eachEditChanges k.deps rest = true →
      (KeyEffect.edits rest k).Armed 1000 ∧ (KeyEffect.edits rest k).world = k.world
        ∧ (KeyEffect.edits rest k).deps = finalCredentials k.deps rest := by
  induction rest with
  | nil => intro k ha _ _; exact ⟨ha, rfl, rfl⟩
  | cons e rest ih =>
    intro k ha hgap hchg
    obtain ⟨dt, c⟩ := e
    have hdt : dt < 1000 := hgap (dt, c) (by simp)
    simp only [eachEditChanges, Bool.and_eq_true, decide_eq_true_eq] at hchg
    obtain ⟨w1, w2⟩ := KeyEffect.wait_armed_lt dt k 1000 ha hdt
    have hne : c ≠ (k.wait dt).deps := by rw [KeyEffect.wait_deps]; exact hchg.1
    obtain ⟨a1, a2, a3, -⟩ := KeyEffect.render_armed c (k.wait dt) w1.owned hne
    have hrest : ∀ e ∈ rest, e.1 < 1000 := fun e he => hgap e (by simp [he])
    obtain ⟨b1, b2, b3⟩ := ih ((k.wait dt).render c) a1 hrest (by rw [a3]; exact hchg.2)
    refine ⟨b1, ?_, ?_⟩
    · show (KeyEffect.edits rest ((k.wait dt).render c)).world = k.world
      rw [b2, a2, w2]
    · show (KeyEffect.edits rest ((k.wait dt).render c)).deps = _
      rw [b3, a3]
      rfl

/-- C9: take any state of the validation effect in which every pending timer is the
one its last run armed (as from the mount on), and a burst of one or more edits, the
first after any delay, each later one less than 1000 ms after the one before, each
changing a credential field, and leaving at least one key non-empty. Each edit clears
the pending timer and arms a new one, so that after the burst one timer is pending;
from the last edit on, nothing is posted before 1000 ms have passed and exactly one
`/validate-keys` request, built from the final field values, has been posted once
they have, however much longer one waits. -/
theorem debounce_burst_single_request (k : KeyEffect) (dt : Nat) (c : Credentials)
    (rest : List (Nat × Credentials))
    (hown : k.Owned)
    (hgap : ∀ e ∈ rest, e.1 < 1000)
    (hchg : eachEditChanges k.deps ((dt, c) :: rest) = true)
    (hkey : ¬ ((finalCredentials c rest).geminiKey = ""
              ∧ (finalCredentials c rest).pexelsKey = ""
              ∧ (finalCredentials c rest).pixabayKey = "")) :
    (KeyEffect.edits ((dt, c) :: rest) k).world = (k.wait dt).world
      ∧ (KeyEffect.edits ((dt, c) :: rest) k).timers.length = 1
      ∧ (∀ t, t < 1000 →
          ((KeyEffect.edits ((dt, c) :: rest) k).wait t).world.requests
            = (k.wait dt).world.requests)
      ∧ (∀ t, 1000 ≤ t →
          ((KeyEffect.edits ((dt, c) :: rest) k).wait t).world.requests
            = (k.wait dt).world.requests ++
                [{ method := "POST", url := validateKeysUrl,
                   body := validate_formData (finalCredentials c rest) }])
      ∧ (∀ t u, (((KeyEffect.edits ((dt, c) :: rest) k).wait t).wait u)
            = (KeyEffect.edits ((dt, c) :: rest) k).wait (t + u)) := by
  simp only [eachEditChanges, Bool.and_eq_true, decide_eq_true_eq] at hchg
  have hne : c ≠ (k.wait dt).deps := by rw [KeyEffect.wait_deps]; exact hchg.1
  obtain ⟨a1, a2, a3, -⟩ :=
    KeyEffect.render_armed c (k.wait dt) (KeyEffect.wait_owned dt k hown) hne
  obtain ⟨b1, b2, b3⟩ :=
    KeyEffect.edits_armed rest ((k.wait dt).render c) a1 hgap (by rw [a3]; exact hchg.2)
  have hE : KeyEffect.edits ((dt, c) :: rest) k = KeyEffect.edits rest ((k.wait dt).render c) :=
    rfl
  rw [a3] at b3
  rw [a2] at b2
  refine ⟨by rw [hE, b2], ?_, ?_, ?_, ?_⟩
  · obtain ⟨id, h1, -⟩ := b1
    rw [hE, h1]
    rfl
  · intro t ht
    have : ¬ 999 < t := by omega
    rw [hE, KeyEffect.wait_armed_world t _ 999 b1, if_neg this, b2]
  · intro t ht
    have : 999 < t := by omega
    rw [hE, KeyEffect.wait_armed_world t _ 999 b1, if_pos this, b2, b3]
    simp [validate_start, hkey, World.post]
  · intro t u
    exact KeyEffect.wait_wait t u _

/-- C9 on a page mounted at time 0 where "a", "ab", "abc" are typed into the Pexels
field at 200 ms, 500 ms and 1499 ms: nothing has been posted 999 ms after the last
keystroke, and one request carrying "abc" has been posted 1000 ms after it. -/
theorem debounce_burst_single_request_witness :
    ((KeyEffect.edits ((200, pexelsOnly "a") :: laterKeystrokes) mountedEffect).wait
        999).world.requests = []
      ∧ ((KeyEffect.edits ((200, pexelsOnly "a") :: laterKeystrokes) mountedEffect).wait
        1000).world.requests =
          [{ method := "POST", url := validateKeysUrl,
             body := [("api_key_gemini", FieldValue.text ""),
                      ("api_endpoint_gemini", FieldValue.text ""),
                      ("api_key_pexels", FieldValue.text "abc"),
                      ("api_key_pixabay", FieldValue.text "")] }] := by
  have hw : (mountedEffect.wait 200).world = World.empty :=
    (KeyEffect.wait_armed_lt 200 mountedEffect 1000 (KeyEffect.mount_armed 0 _ _).1
      (by decide)).2
  have h := debounce_burst_single_request mountedEffect 200 (pexelsOnly "a") laterKeystrokes
    (KeyEffect.mount_armed 0 _ _).2 (by decide) (by decide) (by decide)
  rw [hw] at h
  exact ⟨h.2.2.1 999 (by decide), h.2.2.2.1 1000 (by decide)⟩

/-! ## A completed render -/

/-- A response with a status in 200..299 makes axios resolve with its body. -/
theorem axiosSettle_of_ok {α : Type} (status : Nat) (data : α)
    (h : 200 ≤ status ∧ status < 300) :
    axiosSettle (.response status data) = .fulfilled data := by
  simp [axiosSettle, h]

/-- C11: for every state, so for every state with a render in flight
(`loading = true`), when the `/generate-video` call answers with a status in
200..299 and a binary body, the continuation of `handleSubmit` wraps the body in a
`video/mp4` blob, registers it under a new object URL, and makes that URL the value
of `videoUrl` in place of whatever was there; `loading` is cleared, no other state
cell changes, nothing is alerted and nothing is sent. Over a whole run from a state
with a script file the same holds. -/
theorem completed_render_sets_video (s : HomeState) (w : World) (status : Nat) (data : Blob)
    (hok : 200 ≤ status ∧ status < 300) :
    (handleSubmit_resume (axiosSettle (.response status data)) s w).1 =
        { s with videoUrl := (w.createObjectURL (Blob.new data "video/mp4")).1,
                 loading := false }
      ∧ (handleSubmit_resume (axiosSettle (.response status data)) s w).1.videoUrl
          = (w.createObjectURL (Blob.new data "video/mp4")).1
      ∧ (handleSubmit_resume (axiosSettle (.response status data)) s w).1.loading = false
      ∧ (handleSubmit_resume (axiosSettle (.response status data)) s w).2.objectUrls
          = w.objectUrls ++
              [((handleSubmit_resume (axiosSettle (.response status data)) s w).1.videoUrl,
                { bytes := data.bytes, type := "video/mp4" })]
      ∧ (handleSubmit_resume (axiosSettle (.response status data)) s w).2.alerts = w.alerts
      ∧ (handleSubmit_resume (axiosSettle (.response status data)) s w).2.requests = w.requests
      ∧ (∀ s0 w0 f, s0.input.scriptFile = some f →
          (handleSubmit (.response status data) s0 w0).1.loading = false
            ∧ (handleSubmit (.response status data) s0 w0).1.videoUrl
                = (w0.createObjectURL (Blob.new data "video/mp4")).1
            ∧ (handleSubmit (.response status data) s0 w0).2.objectUrls
                = w0.objectUrls ++
                    [((handleSubmit (.response status data) s0 w0).1.videoUrl,
                      { bytes := data.bytes, type := "video/mp4" })]) := by
  have he := axiosSettle_of_ok status data hok
  refine ⟨?_, ?_, ?_, ?_, ?_, ?_, ?_⟩
  · simp [handleSubmit_resume, he, World.createObjectURL]
  · simp [handleSubmit_resume, he, World.createObjectURL]
  · simp [handleSubmit_resume, he]
  · simp [handleSubmit_resume, he, World.createObjectURL, Blob.new]
  · simp [handleSubmit_resume, he, World.createObjectURL]
  · simp [handleSubmit_resume, he, World.createObjectURL]
  · intro s0 w0 f hsf
    simp [handleSubmit, hsf, handleSubmit_start_of_script s0 w0 f hsf, handleSubmit_resume, he,
      World.createObjectURL, Blob.new]

/-- C11 at the page with the scenario's render in flight and an earlier video shown,
for a 200 answer: the earlier URL is replaced and `loading` is cleared. -/
theorem completed_render_sets_video_witness :
    inFlightWithVideo.loading = true
      ∧ inFlightWithVideo.videoUrl = "blob:earlier"
      ∧ (handleSubmit_resume (axiosSettle (.response 200 sampleVideo))
          inFlightWithVideo inFlightSystem.world).1.videoUrl
          = (inFlightSystem.world.createObjectURL (Blob.new sampleVideo "video/mp4")).1
      ∧ (handleSubmit_resume (axiosSettle (.response 200 sampleVideo))
          inFlightWithVideo inFlightSystem.world).1.loading = false :=
  ⟨by decide, rfl,
    (completed_render_sets_video inFlightWithVideo inFlightSystem.world 200 sampleVideo
      (by decide)).2.1,
    (completed_render_sets_video inFlightWithVideo inFlightSystem.world 200 sampleVideo
      (by decide)).2.2.1⟩

/-! ## Explicit checks -/

/-- C12: an explicit check is scoped to its provider. The Pexels check posts only
`api_key_pexels`, the Pixabay check only `api_key_pixabay`, the Gemini check only
`api_key_gemini` and `api_endpoint_gemini`; and when the answer has a status in
200..299, the provider's own `keyStatus` field takes the answer's value for that
provider while the other two fields keep theirs. -/
theorem explicit_check_scoped_to_provider (s : HomeState) (w : World) (status : Nat)
    (data : KeyStatus) (hok : 200 ≤ status ∧ status < 300) :
    ((pexelsCheck_onClick s w).2.requests = w.requests ++
          [{ method := "POST", url := validateKeysUrl,
             body := [("api_key_pexels", FieldValue.text s.input.pexelsKey)] }]
        ∧ (pexelsCheck_settle (axiosSettle (.response status data)) s w).1.keyStatus
            = { gemini := s.keyStatus.gemini, pexels := data.pexels,
                pixabay := s.keyStatus.pixabay })
      ∧ ((pixabayCheck_onClick s w).2.requests = w.requests ++
          [{ method := "POST", url := validateKeysUrl,
             body := [("api_key_pixabay", FieldValue.text s.input.pixabayKey)] }]
        ∧ (pixabayCheck_settle (axiosSettle (.response status data)) s w).1.keyStatus
            = { gemini := s.keyStatus.gemini, pexels := s.keyStatus.pexels,
                pixabay := data.pixabay })
      ∧ ((geminiCheck_onClick s w).2.requests = w.requests ++
          [{ method := "POST", url := validateKeysUrl,
             body := [("api_key_gemini", FieldValue.text s.input.geminiKey),
                      ("api_endpoint_gemini", FieldValue.text s.input.geminiEndpoint)] }]
        ∧ (geminiCheck_settle (axiosSettle (.response status data)) s w).1.keyStatus
            = { gemini := data.gemini, pexels := s.keyStatus.pexels,
                pixabay := s.keyStatus.pixabay }) := by
  have he := axiosSettle_of_ok status data hok
  simp [pexelsCheck_onClick, pixabayCheck_onClick, geminiCheck_onClick, World.post,
    FormData.append, pexelsCheck_settle, pixabayCheck_settle, geminiCheck_settle, he,
    promiseThen, promiseCatch, promiseFinally, promiseEnd]

/-- C12 at the initial state, where every status is false, for a 200 answer that
reports every key good: each check turns only its own field to true. -/
theorem explicit_check_scoped_to_provider_witness :
    (pexelsCheck_settle (axiosSettle (.response 200 allKeysGood)) initialState
        World.empty).1.keyStatus = { gemini := false, pexels := true, pixabay := false }
      ∧ (pixabayCheck_settle (axiosSettle (.response 200 allKeysGood)) initialState
        World.empty).1.keyStatus = { gemini := false, pexels := false, pixabay := true }
      ∧ (geminiCheck_settle (axiosSettle (.response 200 allKeysGood)) initialState
        World.empty).1.keyStatus = { gemini := true, pexels := false, pixabay := false } :=
  ⟨(explicit_check_scoped_to_provider initialState World.empty 200 allKeysGood
      (by decide)).1.2,
    (explicit_check_scoped_to_provider initialState World.empty 200 allKeysGood
      (by decide)).2.1.2,
    (explicit_check_scoped_to_provider initialState World.empty 200 allKeysGood
      (by decide)).2.2.2⟩

/-! ## Status polling -/

/-- Waiting one millisecond longer is one more tick at the end. -/
theorem Poller.wait_succ (t : Nat) : ∀ p : Poller, p.wait (t + 1) = (p.wait t).tick := by
  induction t with
  | zero => intro p; rfl
  | succ t ih =>
    intro p
    show Poller.wait (t + 1) p.tick = (Poller.wait t p.tick).tick
    exact ih p.tick

/-- A tick that is due fires. -/
theorem Poller.tick_due (p : Poller) (due : Nat) (h : p.interval = some due)
    (hd : due ≤ p.now + 1) :
    p.tick = { p with now := p.now + 1, interval := some (due + 3000),
                      world := fetchStatus_start p.world } := by
  simp [Poller.tick, h, hd]

/-- A tick that is not due yet does not fire. -/
theorem Poller.tick_early (p : Poller) (due : Nat) (h : p.interval = some due)
    (hd : ¬ due ≤ p.now + 1) :
    p.tick = { p with now := p.now + 1 } := by
  simp [Poller.tick, h, hd]

/-- While the interval is armed since activation, after `t` ms the clock, the next
tick and the requests sent are determined by `t`. -/
theorem Poller.wait_activate (p : Poller) (t : Nat) :
    ((p.activate).wait t).now = p.now + t
      ∧ ((p.activate).wait t).interval = some (p.now + 3000 * (t / 3000 + 1))
      ∧ ((p.activate).wait t).world.requests = p.world.requests ++
          List.replicate (1 + t / 3000) { method := "GET", url := systemStatusUrl, body := [] }
      ∧ ((p.activate).wait t).home = p.home := by
  induction t with
  | zero =>
    simp [Poller.wait, Poller.activate, fetchStatus_start, World.get]
  | succ t ih =>
    obtain ⟨h1, h2, h3, h4⟩ := ih
    have hw : (p.activate).wait (t + 1) = ((p.activate).wait t).tick := Poller.wait_succ t _
    by_cases hd : (t + 1) % 3000 = 0
    · have hdue : p.now + 3000 * (t / 3000 + 1) ≤ ((p.activate).wait t).now + 1 := by
        rw [h1]; omega
      have hq : (t + 1) / 3000 = t / 3000 + 1 := by omega
      rw [hw, Poller.tick_due _ _ h2 hdue, hq]
      refine ⟨?_, ?_, ?_, h4⟩
      · show ((p.activate).wait t).now + 1 = _
        rw [h1]; omega
      · exact congrArg some (by omega)
      · show (fetchStatus_start ((p.activate).wait t).world).requests = _
        have ha : 1 + (t / 3000 + 1) = 1 + t / 3000 + 1 := by omega
        simp only [fetchStatus_start, World.get, h3]
        rw [ha, List.append_assoc, ← List.replicate_succ']
    · have hdue : ¬ p.now + 3000 * (t / 3000 + 1) ≤ ((p.activate).wait t).now + 1 := by
        rw [h1]; omega
      have hq : (t + 1) / 3000 = t / 3000 := by omega
      rw [hw, Poller.tick_early _ _ h2 hdue, hq]
      refine ⟨?_, h2, h3, h4⟩
      show ((p.activate).wait t).now + 1 = _
      rw [h1]; omega

/-- Without an armed interval, time passes without any effect on page or browser. -/
theorem Poller.wait_of_cleared (u : Nat) (p : Poller) (h : p.interval = none) :
    (p.wait u).interval = none ∧ (p.wait u).world = p.world ∧ (p.wait u).home = p.home := by
  induction u with
  | zero => exact ⟨h, rfl, rfl⟩
  | succ u ih =>
    obtain ⟨h1, h2, h3⟩ := ih
    rw [Poller.wait_succ]
    unfold Poller.tick
    rw [h1]
    exact ⟨rfl, h2, h3⟩

/-- C13: in the timer model of the status poller, activation issues the first
`/system-status` fetch at once, with the clock where it was; while the poller stays
active the next millisecond issues a fetch exactly when a whole multiple of 3000 ms
has then passed since activation, so `1 + t / 3000` fetches have been issued `t` ms
after activation; and after deactivation no fetch is issued, however long one
waits. -/
theorem poller_fetches_on_cadence (p : Poller) (t u : Nat) :
    ((p.activate).now = p.now
        ∧ (p.activate).world.requests = p.world.requests ++
            [{ method := "GET", url := systemStatusUrl, body := [] }])
      ∧ ((p.activate).wait t).world.requests = p.world.requests ++
          List.replicate (1 + t / 3000) { method := "GET", url := systemStatusUrl, body := [] }
      ∧ ((p.activate).wait (t + 1)).world.requests = ((p.activate).wait t).world.requests ++
          (if (t + 1) % 3000 = 0 then [{ method := "GET", url := systemStatusUrl, body := [] }]
           else [])
      ∧ ((((p.activate).wait t).deactivate).wait u).world = ((p.activate).wait t).world
      ∧ ((p.deactivate).wait u).world = p.world := by
  obtain ⟨-, -, h3, -⟩ := Poller.wait_activate p t
  obtain ⟨-, -, k3, -⟩ := Poller.wait_activate p (t + 1)
  refine ⟨⟨rfl, by simp [Poller.activate, fetchStatus_start, World.get]⟩, h3, ?_, ?_, ?_⟩
  · rw [k3, h3]
    by_cases hd : (t + 1) % 3000 = 0
    · have hq : (t + 1) / 3000 = t / 3000 + 1 := by omega
      have ha : 1 + (t / 3000 + 1) = 1 + t / 3000 + 1 := by omega
      rw [if_pos hd, hq, ha, List.append_assoc, ← List.replicate_succ']
    · have hq : (t + 1) / 3000 = t / 3000 := by omega
      rw [if_neg hd, hq, List.append_nil]
  · exact (Poller.wait_of_cleared u _ rfl).2.1
  · exact (Poller.wait_of_cleared u _ rfl).2.1

/-- The fetches still to come depend only on the clock, the armed interval and the
requests sent so far. -/
theorem Poller.wait_requests_congr (t : Nat) :
    ∀ p q : Poller, p.now = q.now → p.interval = q.interval →
      p.world.requests = q.world.requests →
      (p.wait t).now = (q.wait t).now ∧ (p.wait t).interval = (q.wait t).interval
        ∧ (p.wait t).world.requests = (q.wait t).world.requests := by
  induction t with
  | zero => intro p q h1 h2 h3; exact ⟨h1, h2, h3⟩
  | succ t ih =>
    intro p q h1 h2 h3
    show (Poller.wait t p.tick).now = (Poller.wait t q.tick).now
      ∧ (Poller.wait t p.tick).interval = (Poller.wait t q.tick).interval
      ∧ (Poller.wait t p.tick).world.requests = (Poller.wait t q.tick).world.requests
    apply ih
    · unfold Poller.tick
      rw [h2, h1]
      cases q.interval with
      | none => rfl
      | some due => by_cases hd : due ≤ q.now + 1 <;> simp [hd]
    · unfold Poller.tick
      rw [h2, h1]
      cases q.interval with
      | none => rfl
      | some due => by_cases hd : due ≤ q.now + 1 <;> simp [hd]
    · unfold Poller.tick
      rw [h2, h1]
      cases q.interval with
      | none => exact h3
      | some due =>
        by_cases hd : due ≤ q.now + 1 <;> simp [hd, h3, fetchStatus_start, World.get]

/-- C14: for every snapshot the page holds and every poll outcome. When the
`/system-status` call answers with a status in 200..299, `systemStatus` becomes the
response data as a whole and nothing else changes. When the call fails, the page
state, so the snapshot, is exactly as it was; the failure is logged and neither
alerted nor left unhandled; no request is sent; and clock and interval are as
before, so that the fetches issued from then on are the ones that would have been
issued anyway. -/
theorem status_poll_replaces_or_keeps (p : Poller) (status : Nat) (data : SystemStatus)
    (out : HttpOutcome SystemStatus) (hok : 200 ≤ status ∧ status < 300)
    (hf : out.failed = true) :
    ((p.settle (.response status data)).home.systemStatus = data
        ∧ (p.settle (.response status data)).home = { p.home with systemStatus := data }
        ∧ (p.settle (.response status data)).world = p.world
        ∧ (p.settle (.response status data)).interval = p.interval)
      ∧ ((p.settle out).home = p.home
        ∧ (p.settle out).home.systemStatus = p.home.systemStatus
        ∧ (p.settle out).world.requests = p.world.requests
        ∧ (p.settle out).world.alerts = p.world.alerts
        ∧ (p.settle out).world.unhandledRejections = p.world.unhandledRejections
        ∧ (∃ e, (p.settle out).world.consoleErrors
            = p.world.consoleErrors ++ [("Failed to fetch system status", e)])
        ∧ (p.settle out).now = p.now
        ∧ (p.settle out).interval = p.interval
        ∧ (∀ t, ((p.settle out).wait t).world.requests = (p.wait t).world.requests)) := by
  have he := axiosSettle_of_ok status data hok
  obtain ⟨e, hr⟩ := axiosSettle_of_failed out hf
  have hreq : (p.settle out).world.requests = p.world.requests := by
    simp [Poller.settle, fetchStatus_settle, hr, promiseThen, promiseCatch, promiseEnd,
      World.consoleError]
  refine ⟨⟨?_, ?_, ?_, rfl⟩, ?_, ?_, hreq, ?_, ?_, ⟨e, ?_⟩, rfl, rfl, ?_⟩
  · simp [Poller.settle, fetchStatus_settle, he, promiseThen, promiseCatch, promiseEnd]
  · simp [Poller.settle, fetchStatus_settle, he, promiseThen, promiseCatch, promiseEnd]
  · simp [Poller.settle, fetchStatus_settle, he, promiseThen, promiseCatch, promiseEnd]
  · simp [Poller.settle, fetchStatus_settle, hr, promiseThen, promiseCatch, promiseEnd]
  · simp [Poller.settle, fetchStatus_settle, hr, promiseThen, promiseCatch, promiseEnd]
  · simp [Poller.settle, fetchStatus_settle, hr, promiseThen, promiseCatch, promiseEnd,
      World.consoleError]
  · simp [Poller.settle, fetchStatus_settle, hr, promiseThen, promiseCatch, promiseEnd,
      World.consoleError]
  · simp [Poller.settle, fetchStatus_settle, hr, promiseThen, promiseCatch, promiseEnd,
      World.consoleError]
  · intro t
    exact (Poller.wait_requests_congr t (p.settle out) p rfl rfl hreq).2.2

/-- C14 on a page just activated: a 200 answer installs the reported snapshot, a 503
answer leaves the initial snapshot and sends nothing. -/
theorem status_poll_replaces_or_keeps_witness :
    (Poller.settle (.response 200 busySnapshot) unmountedPoller.activate).home.systemStatus
        = busySnapshot
      ∧ (Poller.settle (.response 503 busySnapshot) unmountedPoller.activate).home.systemStatus
        = initialState.systemStatus
      ∧ (Poller.settle (.response 503 busySnapshot) unmountedPoller.activate).world.requests
        = (unmountedPoller.activate).world.requests :=
  ⟨(status_poll_replaces_or_keeps unmountedPoller.activate 200 busySnapshot
      (.response 503 busySnapshot) (by decide) (by decide)).1.1,
    (status_poll_replaces_or_keeps unmountedPoller.activate 200 busySnapshot
      (.response 503 busySnapshot) (by decide) (by decide)).2.2.1,
    (status_poll_replaces_or_keeps unmountedPoller.activate 200 busySnapshot
      (.response 503 busySnapshot) (by decide) (by decide)).2.2.2.1⟩

end Streamline
